import Mathlib

/-!
Verification of the Thermo-Barista cooling calculator (src/main.py).

The analytical core is the class `CoolingCalculator`, holding three real
parameters (initial temperature `t0`, ambient temperature `ts`, rate
constant `k`) and providing forward evaluation `calculate_at_time` and the
inverse `calculate_time_to_target`.  We embed it over the real numbers
(the Python code computes with `math.exp` / `math.log` on floats; the
specification's properties are stated over exact real arithmetic).
-/

/-- The three physical parameters held by `CoolingCalculator.__init__`:
initial temperature `t0`, ambient temperature `ts`, rate constant `k`. -/
structure CoolingCalculator where
  t0 : ℝ
  ts : ℝ
  k : ℝ

/-- `CoolingCalculator.calculate_at_time` (src/main.py:13-15):
`self.ts + (self.t0 - self.ts) * math.exp(-self.k * t)`. -/
noncomputable def calculate_at_time (c : CoolingCalculator) (t : ℝ) : ℝ :=
  c.ts + (c.t0 - c.ts) * Real.exp (-c.k * t)

/-- `CoolingCalculator.calculate_time_to_target` (src/main.py:17-26):
returns `None` when `self.k <= 0`, returns `None` when the target does not
lie strictly between `min(self.t0, self.ts)` and `max(self.t0, self.ts)`,
and otherwise returns `-(1/self.k) * math.log((target_t - self.ts) / (self.t0 - self.ts))`. -/
noncomputable def calculate_time_to_target (c : CoolingCalculator) (target_t : ℝ) :
    Option ℝ :=
  if c.k ≤ 0 then none
  else if ¬ (min c.t0 c.ts < target_t ∧ target_t < max c.t0 c.ts) then none
  else some (-(1/c.k) * Real.log ((target_t - c.ts) / (c.t0 - c.ts)))

/-- The method call `calculate_at_time` viewed as a state transformer on the
object: the Python body contains no assignment to `self`, so the resulting
state is the incoming one. -/
noncomputable def calculate_at_time_run (c : CoolingCalculator) (t : ℝ) :
    ℝ × CoolingCalculator :=
  (c.ts + (c.t0 - c.ts) * Real.exp (-c.k * t), c)

/-- The method call `calculate_time_to_target` viewed as a state transformer
on the object: the Python body contains no assignment to `self`, so the
resulting state is the incoming one. -/
noncomputable def calculate_time_to_target_run (c : CoolingCalculator) (target_t : ℝ) :
    Option ℝ × CoolingCalculator :=
  (calculate_time_to_target c target_t, c)

/-- The sample times built by `CLIHandler.plot_cooling_curve` (src/main.py:67):
`times = [i * (target_time * 1.5) / 99 for i in range(100)]`. -/
noncomputable def plot_times (target_time : ℝ) : List ℝ :=
  (List.range 100).map (fun i : ℕ => (i : ℝ) * (target_time * 1.5) / 99)

/-- The sampled temperatures built by `CLIHandler.plot_cooling_curve`
(src/main.py:68): `temps = [calculator.calculate_at_time(t) for t in times]`. -/
noncomputable def plot_temps (c : CoolingCalculator) (target_time : ℝ) : List ℝ :=
  (plot_times target_time).map (fun t => calculate_at_time c t)

/-- Python truthiness of the optional float `target_time` as tested by
`if target_time:` in `main` (src/main.py:107): `None` and `0.0` are falsy,
any other float is truthy. -/
def py_truthy (o : Option ℝ) : Prop :=
  ∃ x, o = some x ∧ x ≠ 0

/-- Under the validity conditions of `calculate_time_to_target`, the argument
of the logarithm lies strictly within (0, 1). -/
theorem ratio_mem_Ioo (c : CoolingCalculator) (target_t : ℝ)
    (h1 : min c.t0 c.ts < target_t) (h2 : target_t < max c.t0 c.ts) :
    0 < (target_t - c.ts) / (c.t0 - c.ts) ∧ (target_t - c.ts) / (c.t0 - c.ts) < 1 := by
  rcases lt_trichotomy c.t0 c.ts with hlt | heq | hgt
  · rw [min_eq_left hlt.le] at h1
    rw [max_eq_right hlt.le] at h2
    have hden : (0 : ℝ) < c.ts - c.t0 := by linarith
    have hnum : (0 : ℝ) < c.ts - target_t := by linarith
    have hrw : (target_t - c.ts) / (c.t0 - c.ts) = (c.ts - target_t) / (c.ts - c.t0) := by
      rw [show c.ts - target_t = -(target_t - c.ts) by ring,
        show c.ts - c.t0 = -(c.t0 - c.ts) by ring, neg_div_neg_eq]
    rw [hrw]
    refine ⟨div_pos hnum hden, (div_lt_one hden).mpr ?_⟩
    linarith
  · exfalso
    rw [heq] at h1 h2
    rw [min_self] at h1
    rw [max_self] at h2
    linarith
  · rw [min_eq_right hgt.le] at h1
    rw [max_eq_left hgt.le] at h2
    have hden : (0 : ℝ) < c.t0 - c.ts := by linarith
    have hnum : (0 : ℝ) < target_t - c.ts := by linarith
    refine ⟨div_pos hnum hden, (div_lt_one hden).mpr ?_⟩
    linarith

/-- C4: for every model and every real time `t`, `calculate_at_time t` equals
`ts + (t0 - ts) * exp (-k * t)`, and `calculate_at_time 0` equals `t0` exactly. -/
theorem calculate_at_time_formula_and_zero (c : CoolingCalculator) :
    (∀ t : ℝ, calculate_at_time c t = c.ts + (c.t0 - c.ts) * Real.exp (-c.k * t)) ∧
    calculate_at_time c 0 = c.t0 := by
  constructor
  · intro t
    rfl
  · simp [calculate_at_time]

/-- C2: `calculate_time_to_target` returns the no-solution sentinel `none`
iff `k ≤ 0` or the target does not lie strictly between `min t0 ts` and
`max t0 ts`; in particular it returns `none` at `target = t0`, at
`target = ts`, and for every target whenever `k ≤ 0`. -/
theorem calculate_time_to_target_none_iff :
    (∀ (c : CoolingCalculator) (target_t : ℝ),
      calculate_time_to_target c target_t = none ↔
        (c.k ≤ 0 ∨ ¬ (min c.t0 c.ts < target_t ∧ target_t < max c.t0 c.ts))) ∧
    (∀ c : CoolingCalculator, calculate_time_to_target c c.t0 = none) ∧
    (∀ c : CoolingCalculator, calculate_time_to_target c c.ts = none) ∧
    (∀ (c : CoolingCalculator) (target_t : ℝ), c.k ≤ 0 →
      calculate_time_to_target c target_t = none) := by
  have hiff : ∀ (c : CoolingCalculator) (target_t : ℝ),
      calculate_time_to_target c target_t = none ↔
        (c.k ≤ 0 ∨ ¬ (min c.t0 c.ts < target_t ∧ target_t < max c.t0 c.ts)) := by
    intro c target_t
    unfold calculate_time_to_target
    by_cases hk : c.k ≤ 0
    · simp [hk]
    · by_cases hmid : min c.t0 c.ts < target_t ∧ target_t < max c.t0 c.ts
      · simp [hk, hmid]
      · simp [hk, hmid]
  refine ⟨hiff, ?_, ?_, ?_⟩
  · intro c
    rw [hiff]
    right
    rintro ⟨h1, h2⟩
    rcases le_total c.t0 c.ts with h | h
    · rw [min_eq_left h] at h1
      exact lt_irrefl _ h1
    · rw [max_eq_left h] at h2
      exact lt_irrefl _ h2
  · intro c
    rw [hiff]
    right
    rintro ⟨h1, h2⟩
    rcases le_total c.t0 c.ts with h | h
    · rw [max_eq_right h] at h2
      exact lt_irrefl _ h2
    · rw [min_eq_right h] at h1
      exact lt_irrefl _ h1
  · intro c target_t hk
    rw [hiff]
    exact Or.inl hk

/-- Witness for C2 at concrete inputs: target outside the span, target equal
to a bound, and a non-positive rate constant. -/
theorem calculate_time_to_target_none_iff_witness :
    calculate_time_to_target ⟨80, 20, 5/100⟩ 90 = none ∧
    calculate_time_to_target ⟨80, 20, 5/100⟩ 80 = none ∧
    calculate_time_to_target ⟨80, 20, 0⟩ 40 = none := by
  refine ⟨?_, ?_, ?_⟩
  · rw [(calculate_time_to_target_none_iff.1 ⟨80, 20, 5/100⟩ 90)]
    right
    rintro ⟨-, h2⟩
    rw [show max (80 : ℝ) 20 = 80 by norm_num [max_def]] at h2
    norm_num at h2
  · exact calculate_time_to_target_none_iff.2.1 ⟨80, 20, 5/100⟩
  · exact calculate_time_to_target_none_iff.2.2.2 ⟨80, 20, 0⟩ 40 (by norm_num)

/-- When both validity conditions hold, `calculate_time_to_target` takes its
third branch and returns the inverted-exponential formula. -/
theorem calculate_time_to_target_eq_formula (c : CoolingCalculator) (target_t : ℝ)
    (hk : 0 < c.k) (h1 : min c.t0 c.ts < target_t) (h2 : target_t < max c.t0 c.ts) :
    calculate_time_to_target c target_t =
      some (-(1/c.k) * Real.log ((target_t - c.ts) / (c.t0 - c.ts))) := by
  unfold calculate_time_to_target
  rw [if_neg (not_le.mpr hk), if_neg (not_not_intro ⟨h1, h2⟩)]

/-- Under the validity conditions, the returned time is strictly positive. -/
theorem golden_time_pos (c : CoolingCalculator) (target_t : ℝ)
    (hk : 0 < c.k) (h1 : min c.t0 c.ts < target_t) (h2 : target_t < max c.t0 c.ts) :
    0 < -(1/c.k) * Real.log ((target_t - c.ts) / (c.t0 - c.ts)) := by
  obtain ⟨hr0, hr1⟩ := ratio_mem_Ioo c target_t h1 h2
  have hlog : Real.log ((target_t - c.ts) / (c.t0 - c.ts)) < 0 := Real.log_neg hr0 hr1
  have hkinv : 0 < 1 / c.k := by positivity
  have hrw : -(1/c.k) * Real.log ((target_t - c.ts) / (c.t0 - c.ts)) =
      (1/c.k) * (-Real.log ((target_t - c.ts) / (c.t0 - c.ts))) := by ring
  rw [hrw]
  exact mul_pos hkinv (neg_pos.mpr hlog)

/-- C1: for `k > 0` and a target strictly between `min t0 ts` and `max t0 ts`,
`calculate_time_to_target` returns `-(1/k) * log ((target - ts) / (t0 - ts))`,
the argument of the logarithm lies strictly within (0, 1), and the returned
time is strictly positive. -/
theorem calculate_time_to_target_valid (c : CoolingCalculator) (target_t : ℝ)
    (hk : 0 < c.k) (h1 : min c.t0 c.ts < target_t) (h2 : target_t < max c.t0 c.ts) :
    calculate_time_to_target c target_t =
      some (-(1/c.k) * Real.log ((target_t - c.ts) / (c.t0 - c.ts))) ∧
    0 < (target_t - c.ts) / (c.t0 - c.ts) ∧
    (target_t - c.ts) / (c.t0 - c.ts) < 1 ∧
    0 < -(1/c.k) * Real.log ((target_t - c.ts) / (c.t0 - c.ts)) :=
  ⟨calculate_time_to_target_eq_formula c target_t hk h1 h2,
   (ratio_mem_Ioo c target_t h1 h2).1,
   (ratio_mem_Ioo c target_t h1 h2).2,
   golden_time_pos c target_t hk h1 h2⟩

/-- Witness for C1 at T0 = 80, Ts = 20, k = 1, target = 40. -/
theorem calculate_time_to_target_valid_witness :
    calculate_time_to_target ⟨80, 20, 1⟩ 40 =
      some (-(1/(1:ℝ)) * Real.log (((40:ℝ) - 20) / (80 - 20))) ∧
    0 < ((40:ℝ) - 20) / (80 - 20) ∧
    ((40:ℝ) - 20) / (80 - 20) < 1 ∧
    0 < -(1/(1:ℝ)) * Real.log (((40:ℝ) - 20) / (80 - 20)) :=
  calculate_time_to_target_valid ⟨80, 20, 1⟩ 40 (by norm_num)
    (by show min (80:ℝ) 20 < 40; norm_num [min_def])
    (by show (40:ℝ) < max 80 20; norm_num [max_def])

/-- C3: the round trip is exact over real arithmetic: for `k > 0` and a valid
target, evaluating `calculate_at_time` at the time returned by
`calculate_time_to_target` yields the target exactly. -/
theorem round_trip (c : CoolingCalculator) (target_t : ℝ)
    (hk : 0 < c.k) (h1 : min c.t0 c.ts < target_t) (h2 : target_t < max c.t0 c.ts) :
    ∀ t : ℝ, calculate_time_to_target c target_t = some t →
      calculate_at_time c t = target_t := by
  intro t ht
  rw [calculate_time_to_target_eq_formula c target_t hk h1 h2] at ht
  injection ht with ht
  subst ht
  obtain ⟨hr0, hr1⟩ := ratio_mem_Ioo c target_t h1 h2
  have hkne : c.k ≠ 0 := ne_of_gt hk
  have hne : c.t0 - c.ts ≠ 0 := by
    have hmm : min c.t0 c.ts < max c.t0 c.ts := lt_trans h1 h2
    intro h
    have ht0 : c.t0 = c.ts := by linarith [sub_eq_zero.mp h]
    rw [ht0, min_self, max_self] at hmm
    exact lt_irrefl _ hmm
  have harg : -c.k * (-(1/c.k) * Real.log ((target_t - c.ts) / (c.t0 - c.ts))) =
      Real.log ((target_t - c.ts) / (c.t0 - c.ts)) := by
    field_simp
  unfold calculate_at_time
  rw [harg, Real.exp_log hr0]
  field_simp

/-- Witness for C3 at T0 = 80, Ts = 20, k = 1, target = 40. -/
theorem round_trip_witness :
    calculate_at_time ⟨80, 20, 1⟩ (-(1/(1:ℝ)) * Real.log (((40:ℝ) - 20) / (80 - 20))) = 40 :=
  round_trip ⟨80, 20, 1⟩ 40 (by norm_num)
    (by show min (80:ℝ) 20 < 40; norm_num [min_def])
    (by show (40:ℝ) < max 80 20; norm_num [max_def])
    (-(1/(1:ℝ)) * Real.log (((40:ℝ) - 20) / (80 - 20)))
    (calculate_time_to_target_eq_formula ⟨80, 20, 1⟩ 40 (by norm_num)
      (by show min (80:ℝ) 20 < 40; norm_num [min_def])
      (by show (40:ℝ) < max 80 20; norm_num [max_def]))

/-- C5: for `k > 0`, `calculate_at_time` is strictly decreasing in time when
`t0 > ts`, strictly increasing when `t0 < ts`, and constant when `t0 = ts`. -/
theorem calculate_at_time_monotone (c : CoolingCalculator) (hk : 0 < c.k)
    (t1 t2 : ℝ) (h12 : t1 < t2) :
    (c.ts < c.t0 → calculate_at_time c t2 < calculate_at_time c t1) ∧
    (c.t0 < c.ts → calculate_at_time c t1 < calculate_at_time c t2) ∧
    (c.t0 = c.ts → calculate_at_time c t1 = calculate_at_time c t2) := by
  have hexp : Real.exp (-c.k * t2) < Real.exp (-c.k * t1) := by
    apply Real.exp_lt_exp.mpr
    nlinarith
  unfold calculate_at_time
  refine ⟨?_, ?_, ?_⟩
  · intro h
    nlinarith [mul_pos (sub_pos.mpr h) (sub_pos.mpr hexp)]
  · intro h
    nlinarith [mul_pos (sub_pos.mpr h) (sub_pos.mpr hexp)]
  · intro h
    rw [h]
    ring

/-- Witness for C5: with T0 = 80 > Ts = 20 and k = 1, the temperature at
time 1 is strictly below the temperature at time 0. -/
theorem calculate_at_time_monotone_witness :
    calculate_at_time ⟨80, 20, 1⟩ 1 < calculate_at_time ⟨80, 20, 1⟩ 0 :=
  (calculate_at_time_monotone ⟨80, 20, 1⟩ (by norm_num) 0 1 (by norm_num)).1
    (by norm_num)

/-- C9: when `t0 = ts` the open interval between `min t0 ts` and `max t0 ts`
is empty, so `calculate_time_to_target` returns `none` for every target and
every rate constant. -/
theorem degenerate_interval_none (c : CoolingCalculator) (h : c.t0 = c.ts) :
    ∀ target_t : ℝ, calculate_time_to_target c target_t = none := by
  intro target_t
  unfold calculate_time_to_target
  by_cases hk : c.k ≤ 0
  · simp [hk]
  · have hmid : ¬ (min c.t0 c.ts < target_t ∧ target_t < max c.t0 c.ts) := by
      rw [h, min_self, max_self]
      rintro ⟨h1, h2⟩
      linarith
    rw [if_neg hk, if_pos hmid]

/-- Witness for C9 at T0 = Ts = 50, k = 1/10, target = 40. -/
theorem degenerate_interval_none_witness :
    calculate_time_to_target ⟨50, 50, 1/10⟩ 40 = none :=
  degenerate_interval_none ⟨50, 50, 1/10⟩ rfl 40

/-- C10: any value returned by `calculate_time_to_target` is nonzero (strictly
positive), so the Python truthiness test `if target_time:` in `main` selects
the success branch exactly when the result is not the `None` sentinel. -/
theorem truthiness_dispatch (c : CoolingCalculator) (target_t : ℝ) :
    (∀ v : ℝ, calculate_time_to_target c target_t = some v → 0 < v) ∧
    (py_truthy (calculate_time_to_target c target_t) ↔
      (calculate_time_to_target c target_t).isSome = true) := by
  have hpos : ∀ v : ℝ, calculate_time_to_target c target_t = some v → 0 < v := by
    intro v hv
    by_cases hk : c.k ≤ 0
    · rw [calculate_time_to_target, if_pos hk] at hv
      exact absurd hv (Option.noConfusion)
    · by_cases hmid : min c.t0 c.ts < target_t ∧ target_t < max c.t0 c.ts
      · rw [calculate_time_to_target_eq_formula c target_t (not_le.mp hk)
          hmid.1 hmid.2] at hv
        injection hv with hv
        rw [← hv]
        exact golden_time_pos c target_t (not_le.mp hk) hmid.1 hmid.2
      · rw [calculate_time_to_target, if_neg hk, if_pos hmid] at hv
        exact absurd hv (Option.noConfusion)
  refine ⟨hpos, ?_, ?_⟩
  · rintro ⟨x, hx, -⟩
    rw [hx]
    rfl
  · intro hs
    obtain ⟨v, hv⟩ := Option.isSome_iff_exists.mp hs
    exact ⟨v, hv, ne_of_gt (hpos v hv)⟩

/-- Witness for C10 at T0 = 80, Ts = 20, k = 1, target = 40. -/
theorem truthiness_dispatch_witness :
    py_truthy (calculate_time_to_target ⟨80, 20, 1⟩ 40) ↔
      (calculate_time_to_target ⟨80, 20, 1⟩ 40).isSome = true :=
  (truthiness_dispatch ⟨80, 20, 1⟩ 40).2

/-- The i-th sample time of `plot_cooling_curve`, written as the source
computes it. -/
theorem plot_times_getElem (target_time : ℝ) (i : ℕ) (h : i < 100) :
    (plot_times target_time)[i]? = some ((i : ℝ) * (target_time * 1.5) / 99) := by
  unfold plot_times
  rw [List.getElem?_map, List.getElem?_range h]
  rfl

/-- C7: `plot_cooling_curve` samples `calculate_at_time` at exactly 100
evenly spaced times: the i-th time is `i * (1.5 * target_time) / 99`, the
first is 0, the last is `1.5 * target_time`, consecutive samples differ by
the constant `1.5 * target_time / 99`, and the plotted temperatures are
`calculate_at_time` applied to those times. -/
theorem plot_sampling_contract (c : CoolingCalculator) (target_time : ℝ)
    (hpos : 0 < target_time) :
    (plot_times target_time).length = 100 ∧
    (∀ i : ℕ, i < 100 →
      (plot_times target_time)[i]? = some ((i : ℝ) * (1.5 * target_time) / 99)) ∧
    (plot_times target_time)[0]? = some 0 ∧
    (plot_times target_time)[99]? = some (1.5 * target_time) ∧
    (∀ i : ℕ, i + 1 < 100 → ∀ x y : ℝ,
      (plot_times target_time)[i]? = some x →
      (plot_times target_time)[i+1]? = some y →
      y - x = 1.5 * target_time / 99) ∧
    plot_temps c target_time =
      (plot_times target_time).map (fun t => calculate_at_time c t) := by
  have helem : ∀ i : ℕ, i < 100 →
      (plot_times target_time)[i]? = some ((i : ℝ) * (1.5 * target_time) / 99) := by
    intro i hi
    rw [plot_times_getElem target_time i hi]
    congr 1
    ring
  refine ⟨?_, helem, ?_, ?_, ?_, rfl⟩
  · unfold plot_times
    rw [List.length_map, List.length_range]
  · have h0 := helem 0 (by norm_num)
    simpa using h0
  · have h99 := helem 99 (by norm_num)
    rw [h99]
    congr 1
    norm_num
  · intro i hi x y hx hy
    rw [helem i (by omega)] at hx
    rw [helem (i+1) hi] at hy
    injection hx with hx
    injection hy with hy
    rw [← hx, ← hy]
    push_cast
    ring

/-- Witness for C7 at target_time = 2: the last of the 100 samples is
1.5 × 2. -/
theorem plot_sampling_contract_witness :
    (plot_times 2)[99]? = some ((1.5 : ℝ) * 2) :=
  (plot_sampling_contract ⟨80, 20, 1⟩ 2 (by norm_num)).2.2.2.1

/-- C8: neither method call mutates the stored parameters (the state after a
call equals the state before), each call returns the pure value, and the
results are functions of the three stored parameters and the argument only. -/
theorem model_immutability_and_purity :
    (∀ (c : CoolingCalculator) (t : ℝ),
      (calculate_at_time_run c t).2 = c ∧
      (calculate_at_time_run c t).1 = calculate_at_time c t) ∧
    (∀ (c : CoolingCalculator) (target_t : ℝ),
      (calculate_time_to_target_run c target_t).2 = c ∧
      (calculate_time_to_target_run c target_t).1 = calculate_time_to_target c target_t) ∧
    (∀ (c c2 : CoolingCalculator) (t : ℝ),
      c.t0 = c2.t0 → c.ts = c2.ts → c.k = c2.k →
      calculate_at_time c t = calculate_at_time c2 t) ∧
    (∀ (c c2 : CoolingCalculator) (target_t : ℝ),
      c.t0 = c2.t0 → c.ts = c2.ts → c.k = c2.k →
      calculate_time_to_target c target_t = calculate_time_to_target c2 target_t) := by
  refine ⟨fun c t => ⟨rfl, rfl⟩, fun c target_t => ⟨rfl, rfl⟩, ?_, ?_⟩
  · intro c c2 t h0 hs hk
    unfold calculate_at_time
    rw [h0, hs, hk]
  · intro c c2 target_t h0 hs hk
    unfold calculate_time_to_target
    rw [h0, hs, hk]

/-- Witness for C8 at T0 = 80, Ts = 20, k = 1: the state after a call is the
original state, and two models with equal parameters agree. -/
theorem model_immutability_and_purity_witness :
    (calculate_at_time_run ⟨80, 20, 1⟩ 3).2 = (⟨80, 20, 1⟩ : CoolingCalculator) ∧
    (calculate_time_to_target_run ⟨80, 20, 1⟩ 40).2 = (⟨80, 20, 1⟩ : CoolingCalculator) ∧
    calculate_at_time ⟨80, 20, 1⟩ 3 = calculate_at_time ⟨80, 20, 1⟩ 3 :=
  ⟨(model_immutability_and_purity.1 ⟨80, 20, 1⟩ 3).1,
   (model_immutability_and_purity.2.1 ⟨80, 20, 1⟩ 40).1,
   model_immutability_and_purity.2.2.1 ⟨80, 20, 1⟩ ⟨80, 20, 1⟩ 3 rfl rfl rfl⟩
